import Mathlib

/-!
Verification of the football talent-identification scoring pipeline.

The definitions below are a shallow embedding, over `ℚ`, of the scoring code:

* `Calculator.*` embeds `backend/calculator.py` (`PotentialCalculator`):
  base performance scorers, confidence weighting, baseline expectation,
  bonuses, the fallback development score, and `calculate_potential`.
* `Progression.*` embeds the three-stage progression engine of
  `model/feature_engineering.py` together with the constants of
  `model/config.py`: the population-normalized current-rating stage and the
  validation/repair pass `_validate_and_fix_progression`.
* `XG.*` embeds `model/xg_calculator.py` (`DirectXGCalculator.calculate_xg_xa`).

Machine floats are modelled as exact rationals; Python's `round(x, d)`
(half-to-even) is modelled exactly on `ℚ` by `roundHalfEven`/`roundTo`.
-/

/-- Round-half-to-even on rationals, modelling Python's `round` to integer. -/
def roundHalfEven (q : ℚ) : ℤ :=
  let f := ⌊q⌋
  let r := q - f
  if r < 1/2 then f
  else if 1/2 < r then f + 1
  else if f % 2 = 0 then f else f + 1

/-- Python's `round(q, d)`: round to `d` decimal places, half-to-even. -/
def roundTo (d : ℕ) (q : ℚ) : ℚ :=
  (roundHalfEven (q * 10 ^ d) : ℚ) / 10 ^ d

namespace Calculator

/-- The four player positions recognised by the calculator. -/
inductive Position where
  | FW | MF | DF | GK
  deriving DecidableEq

/-- One player record as consumed by `PotentialCalculator.calculate_potential`
(the fields read out of `player_data`). Counting stats are integers, rate
stats are rationals. -/
structure Player where
  position : Position
  age : ℤ
  matchesPlayed : ℤ
  minutes : ℤ
  goals : ℤ
  goalsPer90 : ℚ
  xgPer90 : ℚ
  xaPer90 : ℚ
  savePercentage : ℚ
  cleanSheetPercentage : ℚ
  goalsAgainstPer90 : ℚ
  deriving DecidableEq

/-- `self.performance_caps = {'FW': 85, 'MF': 83, 'DF': 80, 'GK': 82}`. -/
def performanceCap : Position → ℚ
  | .FW => 85 | .MF => 83 | .DF => 80 | .GK => 82

/-- The position-specific soft cap of `calculate_potential`:
`{'FW': 95, 'MF': 93, 'DF': 92, 'GK': 90}`. -/
def softCap : Position → ℚ
  | .FW => 95 | .MF => 93 | .DF => 92 | .GK => 90

/-- `PotentialCalculator._calculate_gk_performance`, as a function of the
three goalkeeper rate stats (GK elite benchmarks: save 78, cs 35, ga90 0.8). -/
def gkPerformance (savePct csPct ga90 : ℚ) : ℚ :=
  let saveScore := if (78 : ℚ) > 65 then min ((savePct - 65) / (78 - 65) * 40) 50 else 0
  let saveScore := max saveScore 0
  let csScore := if (35 : ℚ) > 20 then min ((csPct - 20) / (35 - 20) * 30) 40 else 0
  let csScore := max csScore 0
  let gaScore := if (0.8 : ℚ) < 1.5 then max ((1.5 - ga90) / (1.5 - 0.8) * 30) 0 else 0
  let gaScore := min gaScore 40
  min (max (30 + saveScore + csScore + gaScore) 40) (performanceCap .GK)

/-- `PotentialCalculator._calculate_volume_bonus`. -/
def volumeBonus (goals : ℤ) : Position → ℚ
  | .FW =>
      if goals ≥ 25 then 8 else if goals ≥ 20 then 6 else if goals ≥ 15 then 4
      else if goals ≥ 10 then 2 else if goals ≥ 5 then 1 else 0
  | .MF =>
      if goals ≥ 12 then 6 else if goals ≥ 8 then 4 else if goals ≥ 5 then 2 else 0
  | .DF =>
      if goals ≥ 8 then 8 else if goals ≥ 5 then 5 else if goals ≥ 3 then 3 else 0
  | .GK => 0

/-- `PotentialCalculator._calculate_efficiency_bonus`. -/
def efficiencyBonus (goalsPer90 : ℚ) : Position → ℚ
  | .FW =>
      if goalsPer90 > 1.0 then 5 else if goalsPer90 > 0.8 then 3
      else if goalsPer90 > 0.6 then 1 else 0
  | .MF =>
      if goalsPer90 > 0.4 then 4 else if goalsPer90 > 0.3 then 2 else 0
  | .DF =>
      if goalsPer90 > 0.2 then 5 else if goalsPer90 > 0.15 then 3 else 0
  | .GK => 0

/-- `PotentialCalculator._calculate_outfield_performance` (elite benchmarks:
FW goals 0.65 / xg 0.60 / xa 0.25; MF 0.25 / 0.22 / 0.30; DF 0.10 / 0.08 / 0.15). -/
def outfieldPerformance (p : Player) : ℚ :=
  let base :=
    match p.position with
    | .FW =>
        let goalRatio := if (0.65 : ℚ) > 0 then min (p.goalsPer90 / 0.65) 1.5 else 0
        let xgRatio := if (0.60 : ℚ) > 0 then min (p.xgPer90 / 0.60) 1.5 else 0
        let xaRatio := if (0.25 : ℚ) > 0 then min (p.xaPer90 / 0.25) 1.5 else 0
        goalRatio * 45 + xgRatio * 35 + xaRatio * 20
    | .MF =>
        let goalRatio := if (0.25 : ℚ) > 0 then min (p.goalsPer90 / 0.25) 1.5 else 0
        let xgRatio := if (0.22 : ℚ) > 0 then min (p.xgPer90 / 0.22) 1.5 else 0
        let xaRatio := if (0.30 : ℚ) > 0 then min (p.xaPer90 / 0.30) 1.5 else 0
        goalRatio * 35 + xgRatio * 25 + xaRatio * 40
    | _ =>
        let goalRatio := if (0.10 : ℚ) > 0 then min (p.goalsPer90 / 0.10) 2.0 else 0
        let xgRatio := if (0.08 : ℚ) > 0 then min (p.xgPer90 / 0.08) 1.5 else 0
        let xaRatio := if (0.15 : ℚ) > 0 then min (p.xaPer90 / 0.15) 1.5 else 0
        goalRatio * 30 + xgRatio * 25 + xaRatio * 45
  let withBonuses := base + volumeBonus p.goals p.position + efficiencyBonus p.goalsPer90 p.position
  min withBonuses (performanceCap p.position)

/-- The position dispatch at the top of `_calculate_performance`:
GK rows use `_calculate_gk_performance`, all others the outfield scorer. -/
def basePerformance (p : Player) : ℚ :=
  match p.position with
  | .GK => gkPerformance p.savePercentage p.cleanSheetPercentage p.goalsAgainstPer90
  | _ => outfieldPerformance p

/-- The discrete confidence labels returned by `_calculate_confidence_weight`. -/
inductive ConfidenceLevel where
  | veryLow | low | medium | high | veryHigh
  deriving DecidableEq

/-- Rank of a confidence label, `veryLow` lowest. -/
def ConfidenceLevel.rank : ConfidenceLevel → ℕ
  | .veryLow => 0 | .low => 1 | .medium => 2 | .high => 3 | .veryHigh => 4

/-- `PotentialCalculator._calculate_confidence_weight` (the `position`
argument is accepted but unused by the source). -/
def confidenceTier (matchesPlayed minutes : ℤ) (_position : Position) : ℚ × ConfidenceLevel :=
  if matchesPlayed ≥ 20 ∧ minutes ≥ 1500 then (1.0, .veryHigh)
  else if matchesPlayed ≥ 15 ∧ minutes ≥ 1000 then (0.85, .high)
  else if matchesPlayed ≥ 10 ∧ minutes ≥ 600 then (0.70, .medium)
  else if matchesPlayed ≥ 5 ∧ minutes ≥ 300 then (0.50, .low)
  else (0.30, .veryLow)

/-- The confidence weight component of `confidenceTier`. -/
def confidenceWeight (matchesPlayed minutes : ℤ) (position : Position) : ℚ :=
  (confidenceTier matchesPlayed minutes position).1

/-- `PotentialCalculator._calculate_baseline_expectation`
(position baselines FW 65, MF 63, DF 60, GK 62, plus the age ladder). -/
def baselineExpectation (p : Player) : ℚ :=
  let b : ℚ := match p.position with | .FW => 65 | .MF => 63 | .DF => 60 | .GK => 62
  let b :=
    if p.age ≤ 16 then b + 10
    else if p.age ≤ 17 then b + 7
    else if p.age ≤ 18 then b + 5
    else if p.age ≤ 19 then b + 3
    else if p.age ≤ 20 then b + 1
    else b
  min (max b 40) 80

/-- `PotentialCalculator._calculate_performance`: the confidence-weighted
blend of base score and baseline, clamped to [30, 100]. -/
def weightedPerformance (p : Player) : ℚ :=
  let baseScore := basePerformance p
  let w := confidenceWeight p.matchesPlayed p.minutes p.position
  let baseline := baselineExpectation p
  min (max (w * baseScore + (1 - w) * baseline) 30) 100

/-- `PotentialCalculator._calculate_elite_bonus`. -/
def eliteBonus (p : Player) (performance : ℚ) : ℚ :=
  match p.position with
  | .FW =>
      if p.goals ≥ 25 ∧ performance ≥ 75 then 6
      else if p.goals ≥ 20 ∧ performance ≥ 70 then 4
      else if p.goals ≥ 15 ∧ performance ≥ 65 then 3
      else 0
  | .MF =>
      if p.goals ≥ 12 ∧ performance ≥ 70 then 4
      else if p.goals ≥ 8 ∧ performance ≥ 65 then 2
      else 0
  | .DF =>
      if p.goals ≥ 8 ∧ performance ≥ 65 then 5
      else if p.goals ≥ 5 ∧ performance ≥ 60 then 3
      else 0
  | .GK => 0

/-- `PotentialCalculator._fallback_development_potential`: the deterministic
age-bucket score (the dict `{16: 85, 17: 80, 18: 75, 19: 70, 20: 65}` with
default 60) plus the stepped consistency bonus, capped at 100. -/
def fallbackDevelopment (age matchesPlayed : ℤ) : ℚ :=
  let ageScore : ℚ :=
    if age = 16 then 85 else if age = 17 then 80 else if age = 18 then 75
    else if age = 19 then 70 else if age = 20 then 65 else 60
  let consistencyBonus : ℚ :=
    if matchesPlayed ≥ 20 then 10 else if matchesPlayed ≥ 15 then 7
    else if matchesPlayed ≥ 10 then 4 else if matchesPlayed ≥ 5 then 2 else 0
  min (ageScore + consistencyBonus) 100

/-- Outcome of the optional ML model path in
`PotentialCalculator._predict_development_potential`: the model/scaler pair
may be absent, the prediction may raise, or it may return a value. -/
inductive MLOutcome where
  | unavailable
  | raises
  | predicts (v : ℚ)

/-- `PotentialCalculator._predict_development_potential`: a successful model
prediction is clipped to [0, 100]; absence of model/scaler and prediction
exceptions both produce the fallback score. -/
def predictDevelopment (o : MLOutcome) (p : Player) : ℚ :=
  match o with
  | .unavailable => fallbackDevelopment p.age p.matchesPlayed
  | .raises => fallbackDevelopment p.age p.matchesPlayed
  | .predicts v => min (max v 0) 100

/-- `PotentialCalculator.calculate_potential`: the final
`predicted_potential` value (70/30 hybrid, sample penalty, elite bonus,
soft-cap compression, clamp to [30, 100], round to one decimal). -/
def calculatePotential (o : MLOutcome) (p : Player) : ℚ :=
  let mlDevelopment := predictDevelopment o p
  let weighted := weightedPerformance p
  let hybrid := weighted * 0.70 + mlDevelopment * 0.30
  let hybrid :=
    if p.matchesPlayed < 5 then hybrid - 8
    else if p.matchesPlayed < 10 then hybrid - 4
    else if p.matchesPlayed < 15 then hybrid - 2
    else hybrid
  let hybrid := if p.matchesPlayed ≥ 10 then hybrid + eliteBonus p weighted else hybrid
  let cap := softCap p.position
  let hybrid := if hybrid > cap then cap + (hybrid - cap) * 0.3 else hybrid
  roundTo 1 (min (max hybrid 30) 100)

/-- The small-sample penalty exactly as the specification words it:
8 below 5 matches, 4 below 10, 2 below 15, else 0. -/
def specSmallSamplePenalty (matchesPlayed : ℤ) : ℚ :=
  if matchesPlayed < 5 then 8
  else if matchesPlayed < 10 then 4
  else if matchesPlayed < 15 then 2
  else 0

/-- The final-assembly contract as the specification words it (§4.6):
hybrid = weighted performance × 0.70 + development prediction × 0.30, minus
the small-sample penalty, plus the elite bonus only when matches ≥ 10,
then soft-cap compression, the final clamp to [30, 100] and rounding to
one decimal. -/
def specFinalPotential (o : MLOutcome) (p : Player) : ℚ :=
  let hybrid := weightedPerformance p * 0.70 + predictDevelopment o p * 0.30
  let afterPenalty := hybrid - specSmallSamplePenalty p.matchesPlayed
  let afterBonus :=
    if p.matchesPlayed ≥ 10 then afterPenalty + eliteBonus p (weightedPerformance p)
    else afterPenalty
  let cap := softCap p.position
  let compressed := if afterBonus > cap then cap + (afterBonus - cap) * 0.3 else afterBonus
  roundTo 1 (min (max compressed 30) 100)

/-- The fallback development score as amended: the age buckets are exact
ages (16 → 85, 17 → 80, 18 → 75, 19 → 70, 20 → 65, every other age → 60),
plus the stepped consistency bonus from matches, capped at 100. -/
def specFallbackDevelopment (age matchesPlayed : ℤ) : ℚ :=
  let ageScore : ℚ :=
    if age = 16 then 85 else if age = 17 then 80 else if age = 18 then 75
    else if age = 19 then 70 else if age = 20 then 65 else 60
  let consistencyBonus : ℚ :=
    if matchesPlayed ≥ 20 then 10 else if matchesPlayed ≥ 15 then 7
    else if matchesPlayed ≥ 10 then 4 else if matchesPlayed ≥ 5 then 2 else 0
  min (ageScore + consistencyBonus) 100

end Calculator

namespace Progression

/-! Embedding of the three-stage progression engine
(`model/feature_engineering.py`) and its constants (`model/config.py`).
`CURRENT_RATING_SCALE` has `min = 20`, `max = 75`;
`YOUTH_PROGRESSION_RULES` has `min_next_season_growth = 2`,
`max_next_season_rating = 85`, `min_peak_growth_from_next = 5`,
`min_peak_growth_from_current = 8`; `PEAK_POTENTIAL_SCALE.max = 94`. -/

/-- The progression triple of one player-season row:
`current_rating`, `next_season_rating`, `peak_potential`. -/
@[ext] structure PRow where
  current : ℚ
  next : ℚ
  peak : ℚ
  deriving DecidableEq

/-- `FeatureEngineer._validate_and_fix_progression` on one row. All the
pandas operations of that method (`clip`, masked assignment) act
element-wise, so the table-level pass is the row-wise map of this
function. -/
def repairRow (r : PRow) : PRow :=
  let c := min r.current 75
  let n := if r.next < c + 2 then c + 2 else r.next
  let n := min n 85
  let p := if r.peak < n + 5 then n + 5 else r.peak
  let p := if p < c + 8 then c + 8 else p
  let p := min p 94
  ⟨c, n, p⟩

/-- The validation/repair pass over a whole table of player-season rows. -/
def repairTable (t : List PRow) : List PRow :=
  t.map repairRow

/-- The fields of one row that feed `_calculate_current_rating_normalized`:
the ten stat columns of `CURRENT_RATING_WEIGHTS`, plus the row's
`sample_size_penalty` (computed earlier in the pipeline by
`_add_sample_size_penalties`). -/
structure StatRow where
  performanceGls : ℚ
  performanceGPK : ℚ
  playingTime90s : ℚ
  startsStarts : ℚ
  teamSuccessPPM : ℚ
  teamSuccessPM90 : ℚ
  teamSuccessOnOff : ℚ
  playingTimeMinPct : ℚ
  startsCompl : ℚ
  startsMnStart : ℚ
  samplePenalty : ℚ
  deriving DecidableEq

/-- The raw weighted rating: the dot product of the row's stats with
`CURRENT_RATING_WEIGHTS`. -/
def rawRating (r : StatRow) : ℚ :=
  r.performanceGls * 1.2 + r.performanceGPK * 1.0 + r.playingTime90s * 1.8 +
  r.startsStarts * 0.8 + r.teamSuccessPPM * 1.5 + r.teamSuccessPM90 * 1.0 +
  r.teamSuccessOnOff * 1.0 + r.playingTimeMinPct * 0.015 +
  r.startsCompl * 0.4 + r.startsMnStart * 0.008

/-- `config.normalize_rating_to_scale`: clip the raw 0-100 rating, map it
linearly onto `[scaleMin, scaleMax]`, and apply the hard cap. -/
def normalizeRatingToScale (raw scaleMin scaleMax cap : ℚ) : ℚ :=
  let raw := max (min raw 100) 0
  min (scaleMin + raw / 100 * (scaleMax - scaleMin)) cap

/-- `FeatureEngineer._calculate_current_rating_normalized`: population
min/max normalization of the raw weighted ratings to 0-100 (all 50 when the
population is flat), rescaling onto the `CURRENT_RATING_SCALE` (20 to 75,
cap 75), multiplication by the row's sample-size penalty, and the final
clip to `[20, 75]`. -/
def currentRatingStage (rows : List StatRow) : List ℚ :=
  let raws := rows.map rawRating
  let seed := raws.headD 0
  let mn := raws.foldl min seed
  let mx := raws.foldl max seed
  rows.map (fun r =>
    let raw := rawRating r
    let scaled := if mn < mx then (raw - mn) / (mx - mn) * 100 else 50
    let normalized := normalizeRatingToScale scaled 20 75 75
    let penalized := normalized * r.samplePenalty
    max (min penalized 75) 20)

end Progression

namespace XG

/-- The fields of one row read by `DirectXGCalculator.calculate_xg_xa`. -/
structure XRow where
  position : Calculator.Position
  goals : ℚ
  assists : ℚ
  minutes : ℚ
  deriving DecidableEq

/-- The four columns written by `DirectXGCalculator.calculate_xg_xa`. -/
structure XOut where
  xG : ℚ
  xA : ℚ
  xGPer90 : ℚ
  xAPer90 : ℚ
  deriving DecidableEq

/-- `nineties = minutes / 90.0 if minutes > 0 else 0`. -/
def nineties (minutes : ℚ) : ℚ :=
  if minutes > 0 then minutes / 90 else 0

/-- `DirectXGCalculator.calculate_xg_xa` on one row: GK rows get all
zeros; outfield rows get xG = 85% of goals, xA = 75% of assists, and
per-90 rates that short-circuit to 0 when the nineties denominator is 0. -/
def calculateXgXa (r : XRow) : XOut :=
  match r.position with
  | .GK => ⟨0, 0, 0, 0⟩
  | _ =>
      let xg := r.goals * 0.85
      let xa := r.assists * 0.75
      let n := nineties r.minutes
      let xgPer90 := if n > 0 then xg / n else 0
      let xaPer90 := if n > 0 then xa / n else 0
      ⟨roundTo 2 xg, roundTo 2 xa, roundTo 3 xgPer90, roundTo 3 xaPer90⟩

end XG

namespace Progression

/-- A masked raise `if x < b then b else x` leaves a value that is at
least the bound `b`. -/
theorem le_raise (x b : ℚ) : b ≤ if x < b then b else x := by
  split <;> linarith

/-- A masked raise never lowers the value. -/
theorem raise_ge (x b : ℚ) : x ≤ if x < b then b else x := by
  split <;> linarith

/-- The repaired row satisfies all the gap and cap constraints the
validation pass enforces. -/
theorem repairRow_spec (r : PRow) :
    (repairRow r).current ≤ 75 ∧
      (repairRow r).current + 2 ≤ (repairRow r).next ∧
      (repairRow r).next ≤ 85 ∧
      (repairRow r).next + 5 ≤ (repairRow r).peak ∧
      (repairRow r).current + 8 ≤ (repairRow r).peak ∧
      (repairRow r).peak ≤ 94 := by
  obtain ⟨c0, n0, p0⟩ := r
  dsimp only [repairRow]
  set c := min c0 75 with hc
  set n1 := if n0 < c + 2 then c + 2 else n0 with hn1
  set n := min n1 85 with hn
  set p1 := if p0 < n + 5 then n + 5 else p0 with hp1
  set p2 := if p1 < c + 8 then c + 8 else p1 with hp2
  set p := min p2 94 with hp
  have hc75 : c ≤ 75 := min_le_right _ _
  have hcn1 : c + 2 ≤ n1 := le_raise _ _
  have hcn : c + 2 ≤ n := le_min hcn1 (by linarith)
  have hn85 : n ≤ 85 := min_le_right _ _
  have hnp1 : n + 5 ≤ p1 := le_raise _ _
  have hp1p2 : p1 ≤ p2 := raise_ge _ _
  have hcp2 : c + 8 ≤ p2 := le_raise _ _
  have hnp : n + 5 ≤ p := le_min (by linarith) (by linarith)
  have hcp : c + 8 ≤ p := le_min hcp2 (by linarith)
  exact ⟨hc75, hcn, hn85, hnp, hcp, min_le_right _ _⟩

/-- One application of the repair already satisfies every condition the
repair tests for, so a second application changes nothing. -/
theorem repairRow_idem (r : PRow) : repairRow (repairRow r) = repairRow r := by
  obtain ⟨h1, h2, h3, h4, h5, h6⟩ := repairRow_spec r
  set s := repairRow r with hs
  have hcur : min s.current 75 = s.current := min_eq_left h1
  have hnext0 : (if s.next < s.current + 2 then s.current + 2 else s.next) = s.next :=
    if_neg (not_lt.2 h2)
  have hnext : min s.next 85 = s.next := min_eq_left h3
  have hpeak0 : (if s.peak < s.next + 5 then s.next + 5 else s.peak) = s.peak :=
    if_neg (not_lt.2 h4)
  have hpeak1 : (if s.peak < s.current + 8 then s.current + 8 else s.peak) = s.peak :=
    if_neg (not_lt.2 h5)
  have hpeak : min s.peak 94 = s.peak := min_eq_left h6
  ext
  · dsimp only [repairRow]; rw [hcur]
  · dsimp only [repairRow]; rw [hcur, hnext0, hnext]
  · dsimp only [repairRow]; rw [hcur, hnext0, hnext, hpeak0, hpeak1, hpeak]

end Progression

/-- C1: after the validation/repair pass, every row of the output table
satisfies current ≤ next ≤ peak, and peak never exceeds the absolute cap
of 94, for every input table. -/
theorem c1_progression_invariant (t : List Progression.PRow) (r : Progression.PRow)
    (h : r ∈ Progression.repairTable t) :
    r.current ≤ r.next ∧ r.next ≤ r.peak ∧ r.peak ≤ 94 := by
  obtain ⟨x, -, rfl⟩ := List.mem_map.1 h
  obtain ⟨h1, h2, h3, h4, h5, h6⟩ := Progression.repairRow_spec x
  exact ⟨by linarith, by linarith, h6⟩

/-- Witness for C1 on the adversarial pre-repair row
(current, next, peak) = (70, 50, 60), which repairs to (70, 72, 78). -/
theorem c1_progression_invariant_witness :
    (⟨70, 72, 78⟩ : Progression.PRow) ∈ Progression.repairTable [⟨70, 50, 60⟩] ∧
      ((⟨70, 72, 78⟩ : Progression.PRow).current ≤ (⟨70, 72, 78⟩ : Progression.PRow).next ∧
        (⟨70, 72, 78⟩ : Progression.PRow).next ≤ (⟨70, 72, 78⟩ : Progression.PRow).peak ∧
        (⟨70, 72, 78⟩ : Progression.PRow).peak ≤ 94) := by
  have hmem : (⟨70, 72, 78⟩ : Progression.PRow) ∈ Progression.repairTable [⟨70, 50, 60⟩] := by
    norm_num [Progression.repairTable, Progression.repairRow, min_def]
  exact ⟨hmem, c1_progression_invariant _ _ hmem⟩

/-- C3: the validation/repair pass is idempotent: running it twice on any
table gives exactly the same table as running it once. -/
theorem c3_repair_idempotent (t : List Progression.PRow) :
    Progression.repairTable (Progression.repairTable t) = Progression.repairTable t := by
  simp only [Progression.repairTable, List.map_map]
  exact List.map_congr_left fun r _ => Progression.repairRow_idem r

/-- C4 (counterexample): the current-rating stage can output a value above
70 (here exactly 75, the configured scale maximum), so the claimed interval
[20, 70] is wrong. -/
theorem c4_counterexample :
    ¬ (∀ x ∈ Progression.currentRatingStage
        ([⟨0, 0, 0, 0, 0, 0, 0, 0, 0, 0, 1⟩, ⟨10, 0, 0, 0, 0, 0, 0, 0, 0, 0, 1⟩] :
          List Progression.StatRow), x ≤ 70) := by
  have hev : Progression.currentRatingStage
      ([⟨0, 0, 0, 0, 0, 0, 0, 0, 0, 0, 1⟩, ⟨10, 0, 0, 0, 0, 0, 0, 0, 0, 0, 1⟩] :
        List Progression.StatRow) = [20, 75] := by
    norm_num [Progression.currentRatingStage, Progression.rawRating,
      Progression.normalizeRatingToScale, min_def, max_def]
  intro h
  have h75 := h 75 (by rw [hev]; simp)
  norm_num at h75

/-- C4 (amended): every current rating produced by the progression
engine's current-rating stage lies in [20, 75] — the configured
`CURRENT_RATING_SCALE` runs from 20 to 75 (70 is only the "elite"
landmark), and the final clip bounds the value by 20 and 75. -/
theorem c4_current_rating_bounds (rows : List Progression.StatRow) (x : ℚ)
    (h : x ∈ Progression.currentRatingStage rows) : 20 ≤ x ∧ x ≤ 75 := by
  simp only [Progression.currentRatingStage, List.mem_map] at h
  obtain ⟨r, -, rfl⟩ := h
  exact ⟨le_max_right _ _, max_le (min_le_right _ _) (by norm_num)⟩

/-- Witness for C4 on a two-row table with sample-size penalty 1. -/
theorem c4_current_rating_bounds_witness :
    (20 : ℚ) ∈ Progression.currentRatingStage
        ([⟨0, 0, 0, 0, 0, 0, 0, 0, 0, 0, 1⟩, ⟨10, 0, 0, 0, 0, 0, 0, 0, 0, 0, 1⟩] :
          List Progression.StatRow) ∧
      (20 : ℚ) ≤ 20 ∧ (20 : ℚ) ≤ 75 := by
  have hmem : (20 : ℚ) ∈ Progression.currentRatingStage
      ([⟨0, 0, 0, 0, 0, 0, 0, 0, 0, 0, 1⟩, ⟨10, 0, 0, 0, 0, 0, 0, 0, 0, 0, 1⟩] :
        List Progression.StatRow) := by
    norm_num [Progression.currentRatingStage, Progression.rawRating,
      Progression.normalizeRatingToScale, min_def, max_def]
  exact ⟨hmem, c4_current_rating_bounds _ _ hmem⟩

/-- The integer produced by round-half-to-even is within 1/2 of its input. -/
theorem roundHalfEven_bounds (q : ℚ) :
    q - 1/2 ≤ (roundHalfEven q : ℚ) ∧ (roundHalfEven q : ℚ) ≤ q + 1/2 := by
  have h1 : (⌊q⌋ : ℚ) ≤ q := Int.floor_le q
  have h2 : q < ⌊q⌋ + 1 := Int.lt_floor_add_one q
  simp only [roundHalfEven]
  split_ifs <;> constructor <;> push_cast <;> linarith

/-- Rounding to one decimal preserves strict order across a gap of more
than a tenth. -/
theorem roundTo_one_lt (x y : ℚ) (h : x + 1/10 < y) : roundTo 1 x < roundTo 1 y := by
  obtain ⟨-, hx2⟩ := roundHalfEven_bounds (x * 10)
  obtain ⟨hy1, -⟩ := roundHalfEven_bounds (y * 10)
  have e : (10:ℚ) ^ 1 = 10 := by norm_num
  simp only [roundTo, e]
  rw [div_lt_div_iff_of_pos_right (by norm_num : (0:ℚ) < 10)]
  linarith

namespace Calculator

/-- The baseline expectation is always clamped into [40, 80]. -/
theorem baselineExpectation_bounds (p : Player) :
    40 ≤ baselineExpectation p ∧ baselineExpectation p ≤ 80 := by
  simp only [baselineExpectation]
  exact ⟨le_min (le_max_right _ _) (by norm_num), min_le_right _ _⟩

/-- Every base performance score is at most 85 (the largest position cap). -/
theorem basePerformance_le (p : Player) : basePerformance p ≤ 85 := by
  obtain ⟨pos, age, m, mi, g, g90, xg90, xa90, sv, cs, ga⟩ := p
  cases pos <;>
    simp only [basePerformance, outfieldPerformance, gkPerformance, performanceCap] <;>
    exact le_trans (min_le_right _ _) (by norm_num)

/-- The elite bonus is between 0 and 6. -/
theorem eliteBonus_bounds (p : Player) (performance : ℚ) :
    0 ≤ eliteBonus p performance ∧ eliteBonus p performance ≤ 6 := by
  obtain ⟨pos, age, m, mi, g, g90, xg90, xa90, sv, cs, ga⟩ := p
  cases pos <;> simp only [eliteBonus] <;> constructor <;>
    first
      | (split_ifs <;> norm_num)
      | norm_num

/-- The confidence weight always lies in [0.30, 1]. -/
theorem confidenceWeight_mem (m mi : ℤ) (pos : Position) :
    (0.30 : ℚ) ≤ confidenceWeight m mi pos ∧ confidenceWeight m mi pos ≤ 1 := by
  simp only [confidenceWeight, confidenceTier]
  split_ifs <;> constructor <;> norm_num

/-- Below five matches every confidence tier test fails, so the weight is
the bottom value 0.30. -/
theorem confidenceWeight_of_lt5 (m mi : ℤ) (pos : Position) (h : m < 5) :
    confidenceWeight m mi pos = 0.30 := by
  simp only [confidenceWeight, confidenceTier]
  split_ifs <;> first | rfl | (exfalso; omega)

/-- The soft cap always lies in [90, 95]. -/
theorem softCap_bounds (pos : Position) : 90 ≤ softCap pos ∧ softCap pos ≤ 95 := by
  cases pos <;> exact ⟨by norm_num [softCap], by norm_num [softCap]⟩

/-- The fallback development score at 3 matches is the bare age score,
which lies in [60, 85]. -/
theorem fallbackDevelopment_3_bounds (age : ℤ) :
    60 ≤ fallbackDevelopment age 3 ∧ fallbackDevelopment age 3 ≤ 85 := by
  simp only [fallbackDevelopment]
  norm_num
  split_ifs <;> norm_num [min_def]

/-- At 25 matches the consistency bonus is 10, and the cap at 100 is slack,
so the fallback score is exactly 10 more than at 3 matches. -/
theorem fallbackDevelopment_25_eq (age : ℤ) :
    fallbackDevelopment age 25 = fallbackDevelopment age 3 + 10 := by
  simp only [fallbackDevelopment]
  norm_num
  split_ifs <;> norm_num [min_def]

/-- When the baseline does not exceed the base score, the [30, 100] clamp
in the confidence-weighted blend is slack, so the blend is the plain convex
combination. -/
theorem weightedPerformance_eq (p : Player)
    (h : baselineExpectation p ≤ basePerformance p) :
    weightedPerformance p =
      confidenceWeight p.matchesPlayed p.minutes p.position * basePerformance p +
        (1 - confidenceWeight p.matchesPlayed p.minutes p.position) *
          baselineExpectation p := by
  obtain ⟨hw1, hw2⟩ := confidenceWeight_mem p.matchesPlayed p.minutes p.position
  obtain ⟨hbl40, hbl80⟩ := baselineExpectation_bounds p
  have hb85 := basePerformance_le p
  dsimp only [weightedPerformance]
  set w := confidenceWeight p.matchesPlayed p.minutes p.position with hw
  set b := basePerformance p with hb
  set bl := baselineExpectation p with hbl
  have id1 : w * b + (1 - w) * bl = bl + w * (b - bl) := by ring
  have id2 : b - (w * b + (1 - w) * bl) = (1 - w) * (b - bl) := by ring
  have k1 : 0 ≤ w * (b - bl) := mul_nonneg (by linarith) (by linarith)
  have k2 : 0 ≤ (1 - w) * (b - bl) := mul_nonneg (by linarith) (by linarith)
  rw [max_eq_left (by linarith), min_eq_left (by linarith)]

end Calculator

/-- The shared tail of the potential assembly (soft-cap compression, final
clamp, rounding) maps a pre-compression gap of at least 11 starting from a
value in [38, 77] to a strict inequality of rounded outputs. -/
theorem finalAssembly_lt (cap x y : ℚ) (hcap1 : 90 ≤ cap) (hcap2 : cap ≤ 95)
    (hx1 : 38 ≤ x) (hx2 : x ≤ 77) (hy94 : y ≤ 94) (hxy : x + 11 ≤ y) :
    roundTo 1 (min (max (if x > cap then cap + (x - cap) * 0.3 else x) 30) 100) <
      roundTo 1 (min (max (if y > cap then cap + (y - cap) * 0.3 else y) 30) 100) := by
  rw [if_neg (by push_neg; linarith : ¬ x > cap)]
  set cy := if y > cap then cap + (y - cap) * 0.3 else y with hcy
  have hcy1 : x + 33/10 ≤ cy := by
    rw [hcy]; split_ifs with hyc <;> linarith
  have hcy2 : cy ≤ 100 := by
    rw [hcy]; split_ifs with hyc <;> linarith
  rw [max_eq_left (by linarith : (30:ℚ) ≤ x), min_eq_left (by linarith : x ≤ 100),
    max_eq_left (by linarith : (30:ℚ) ≤ cy), min_eq_left hcy2]
  exact roundTo_one_lt x cy (by linarith)

/-- C10: for every goalkeeper input, no matter how far the save percentage,
clean-sheet percentage and goals-against-per-90 are from baseline, the GK
base performance score is clamped to the interval [40, 82]; in particular
it is never below 40. -/
theorem c10_gk_performance_clamped (savePct csPct ga90 : ℚ) :
    40 ≤ Calculator.gkPerformance savePct csPct ga90 ∧
      Calculator.gkPerformance savePct csPct ga90 ≤ 82 := by
  simp only [Calculator.gkPerformance, Calculator.performanceCap]
  exact ⟨le_min (le_max_right _ _) (by norm_num), min_le_right _ _⟩

/-- C5 (counterexample): the GK base performance scorer does NOT return 30
at the exact-baseline inputs save% = 70, clean-sheet% = 20, GA90 = 1.5. -/
theorem c5_counterexample : Calculator.gkPerformance 70 20 1.5 ≠ 30 := by
  norm_num [Calculator.gkPerformance, Calculator.performanceCap, min_def, max_def]

/-- C5 (amended): at save% = 70, clean-sheet% = 20, GA90 = 1.5 the GK base
performance scorer returns 590/13 (about 45.4): the clean-sheet and
goals-against components are zero there, but the save component measures
from 65 (not 70) and contributes (70-65)/(78-65)*40 = 200/13 on top of the
base 30, and the final clamp floors the score at 40, not 30. -/
theorem c5_gk_baseline_value : Calculator.gkPerformance 70 20 1.5 = 590 / 13 := by
  norm_num [Calculator.gkPerformance, Calculator.performanceCap, min_def, max_def]

/-- C9: for every player row with minutes = 0, the per-90 normalizer yields
exactly 0 for the nineties denominator and for both derived per-90
statistics; the division is short-circuited. -/
theorem c9_zero_minutes_safety (r : XG.XRow) (h : r.minutes = 0) :
    XG.nineties r.minutes = 0 ∧
      (XG.calculateXgXa r).xGPer90 = 0 ∧ (XG.calculateXgXa r).xAPer90 = 0 := by
  obtain ⟨pos, goals, assists, minutes⟩ := r
  simp only at h
  subst h
  cases pos <;>
    simp [XG.nineties, XG.calculateXgXa, roundTo, roundHalfEven]

/-- Witness for C9 at a concrete zero-minute outfield row. -/
theorem c9_zero_minutes_safety_witness :
    (⟨Calculator.Position.FW, 5, 2, 0⟩ : XG.XRow).minutes = 0 ∧
      (XG.nineties (⟨Calculator.Position.FW, 5, 2, 0⟩ : XG.XRow).minutes = 0 ∧
        (XG.calculateXgXa ⟨Calculator.Position.FW, 5, 2, 0⟩).xGPer90 = 0 ∧
        (XG.calculateXgXa ⟨Calculator.Position.FW, 5, 2, 0⟩).xAPer90 = 0) :=
  ⟨rfl, c9_zero_minutes_safety ⟨Calculator.Position.FW, 5, 2, 0⟩ rfl⟩

/-- C8: the confidence weighter is monotone in sample size: for every
position, raising matches and minutes together never lowers the returned
confidence weight, nor the rank of the returned confidence tier. -/
theorem c8_confidence_monotone (pos : Calculator.Position) (m m' mi mi' : ℤ)
    (hm : m ≤ m') (hmi : mi ≤ mi') :
    Calculator.confidenceWeight m mi pos ≤ Calculator.confidenceWeight m' mi' pos ∧
      (Calculator.confidenceTier m mi pos).2.rank ≤
        (Calculator.confidenceTier m' mi' pos).2.rank := by
  simp only [Calculator.confidenceWeight, Calculator.confidenceTier]
  split_ifs <;>
    first
      | (exfalso; omega)
      | (constructor <;> norm_num [Calculator.ConfidenceLevel.rank])

/-- C2: for every player record and every outcome of the optional ML model,
the final predicted potential is assembled exactly as specified: the 70/30
hybrid, minus the small-sample penalty (8 / 4 / 2 by match count), plus the
elite bonus only when matches ≥ 10, soft-cap compression of any excess
above the position cap by factor 0.3, and the final clamp to [30, 100]
rounded to one decimal. -/
theorem c2_final_potential_formula (o : Calculator.MLOutcome) (p : Calculator.Player) :
    Calculator.calculatePotential o p = Calculator.specFinalPotential o p := by
  simp only [Calculator.calculatePotential, Calculator.specFinalPotential,
    Calculator.specSmallSamplePenalty]
  split_ifs <;> first | rfl | linarith | ring_nf

/-- C6 (counterexample): the fallback development score does not map every
age ≤ 16 to 85: at age 15 (model unavailable, matches 0) the age bucket
falls through to the default of 60, so the returned score is not 85. -/
theorem c6_counterexample :
    Calculator.predictDevelopment Calculator.MLOutcome.unavailable
      ⟨Calculator.Position.FW, 15, 0, 0, 0, 0, 0, 0, 70, 20, 1.5⟩ ≠ 85 := by
  norm_num [Calculator.predictDevelopment, Calculator.fallbackDevelopment, min_def]

/-- C6 (amended): whenever the model or scaler is unavailable, or the
prediction raises, the development predictor returns the deterministic
fallback — the exact-age bucket score (16 → 85, 17 → 80, 18 → 75, 19 → 70,
20 → 65, all other ages → 60) plus the stepped consistency bonus of 0-10
points from matches — and the result is bounded to [0, 100]. -/
theorem c6_fallback_development (o : Calculator.MLOutcome) (p : Calculator.Player)
    (h : o = Calculator.MLOutcome.unavailable ∨ o = Calculator.MLOutcome.raises) :
    Calculator.predictDevelopment o p =
        Calculator.specFallbackDevelopment p.age p.matchesPlayed ∧
      0 ≤ Calculator.predictDevelopment o p ∧
      Calculator.predictDevelopment o p ≤ 100 := by
  have hb : ∀ age m : ℤ, 0 ≤ Calculator.fallbackDevelopment age m ∧
      Calculator.fallbackDevelopment age m ≤ 100 := by
    intro age m
    refine ⟨?_, min_le_right _ _⟩
    simp only [Calculator.fallbackDevelopment]
    split_ifs <;> norm_num [min_def]
  rcases h with rfl | rfl <;>
    exact ⟨rfl, (hb p.age p.matchesPlayed).1, (hb p.age p.matchesPlayed).2⟩

/-- Witness for C6 with the model unavailable, at age 17 and 12 matches. -/
theorem c6_fallback_development_witness :
    (Calculator.MLOutcome.unavailable = Calculator.MLOutcome.unavailable ∨
      Calculator.MLOutcome.unavailable = Calculator.MLOutcome.raises) ∧
      (Calculator.predictDevelopment Calculator.MLOutcome.unavailable
          ⟨Calculator.Position.MF, 17, 12, 900, 3, 0.2, 0.2, 0.1, 70, 20, 1.5⟩ =
          Calculator.specFallbackDevelopment
            (⟨Calculator.Position.MF, 17, 12, 900, 3, 0.2, 0.2, 0.1, 70, 20, 1.5⟩ :
              Calculator.Player).age
            (⟨Calculator.Position.MF, 17, 12, 900, 3, 0.2, 0.2, 0.1, 70, 20, 1.5⟩ :
              Calculator.Player).matchesPlayed ∧
        0 ≤ Calculator.predictDevelopment Calculator.MLOutcome.unavailable
            ⟨Calculator.Position.MF, 17, 12, 900, 3, 0.2, 0.2, 0.1, 70, 20, 1.5⟩ ∧
        Calculator.predictDevelopment Calculator.MLOutcome.unavailable
            ⟨Calculator.Position.MF, 17, 12, 900, 3, 0.2, 0.2, 0.1, 70, 20, 1.5⟩ ≤ 100) :=
  ⟨Or.inl rfl, c6_fallback_development Calculator.MLOutcome.unavailable
    ⟨Calculator.Position.MF, 17, 12, 900, 3, 0.2, 0.2, 0.1, 70, 20, 1.5⟩ (Or.inl rfl)⟩

/-- C7 (counterexample): two records identical except for matches (3 vs 25)
do NOT always give the lower-match record the lower final potential: a
forward (age 18, 1400 minutes) with zero production scores 48.8 at 3
matches but only 46.5 at 25 matches, because the larger sample shifts the
blend away from the favourable age baseline onto the poor observed base
score. -/
theorem c7_counterexample :
    ¬ (Calculator.calculatePotential Calculator.MLOutcome.unavailable
          ⟨Calculator.Position.FW, 18, 3, 1400, 0, 0, 0, 0, 70, 20, 1.5⟩ <
        Calculator.calculatePotential Calculator.MLOutcome.unavailable
          ⟨Calculator.Position.FW, 18, 25, 1400, 0, 0, 0, 0, 70, 20, 1.5⟩) := by
  have h3 : Calculator.calculatePotential Calculator.MLOutcome.unavailable
      ⟨Calculator.Position.FW, 18, 3, 1400, 0, 0, 0, 0, 70, 20, 1.5⟩ = roundTo 1 (244/5) := by
    norm_num [Calculator.calculatePotential, Calculator.predictDevelopment,
      Calculator.fallbackDevelopment, Calculator.weightedPerformance,
      Calculator.basePerformance, Calculator.outfieldPerformance,
      Calculator.volumeBonus, Calculator.efficiencyBonus, Calculator.performanceCap,
      Calculator.confidenceWeight, Calculator.confidenceTier,
      Calculator.baselineExpectation, Calculator.eliteBonus, Calculator.softCap,
      min_def, max_def]
  have h25 : Calculator.calculatePotential Calculator.MLOutcome.unavailable
      ⟨Calculator.Position.FW, 18, 25, 1400, 0, 0, 0, 0, 70, 20, 1.5⟩ = roundTo 1 (93/2) := by
    norm_num [Calculator.calculatePotential, Calculator.predictDevelopment,
      Calculator.fallbackDevelopment, Calculator.weightedPerformance,
      Calculator.basePerformance, Calculator.outfieldPerformance,
      Calculator.volumeBonus, Calculator.efficiencyBonus, Calculator.performanceCap,
      Calculator.confidenceWeight, Calculator.confidenceTier,
      Calculator.baselineExpectation, Calculator.eliteBonus, Calculator.softCap,
      min_def, max_def]
  rw [h3, h25]
  exact lt_asymm (roundTo_one_lt (93/2) (244/5) (by norm_num))

/-- C7 (amended): for records identical except matches (3 vs 25), the
3-match record scores strictly lower than the 25-match record whenever the
record's base performance score is at least its baseline expectation (with
the development score coming from the fallback path). The counterexample
forces this hypothesis: when observed performance is below the baseline
prior, a larger sample lowers the weighted score instead. -/
theorem c7_small_sample_damping (p : Calculator.Player)
    (h : Calculator.baselineExpectation p ≤ Calculator.basePerformance p) :
    Calculator.calculatePotential Calculator.MLOutcome.unavailable
        { p with matchesPlayed := 3 } <
      Calculator.calculatePotential Calculator.MLOutcome.unavailable
        { p with matchesPlayed := 25 } := by
  have h3 : Calculator.baselineExpectation { p with matchesPlayed := 3 } ≤
      Calculator.basePerformance { p with matchesPlayed := 3 } := h
  have h25 : Calculator.baselineExpectation { p with matchesPlayed := 25 } ≤
      Calculator.basePerformance { p with matchesPlayed := 25 } := h
  have hW3 := Calculator.weightedPerformance_eq _ h3
  have hW25 := Calculator.weightedPerformance_eq _ h25
  dsimp only at hW3 hW25
  have eb3 : Calculator.basePerformance { p with matchesPlayed := 3 } =
      Calculator.basePerformance p := rfl
  have eb25 : Calculator.basePerformance { p with matchesPlayed := 25 } =
      Calculator.basePerformance p := rfl
  have ebl3 : Calculator.baselineExpectation { p with matchesPlayed := 3 } =
      Calculator.baselineExpectation p := rfl
  have ebl25 : Calculator.baselineExpectation { p with matchesPlayed := 25 } =
      Calculator.baselineExpectation p := rfl
  rw [eb3, ebl3,
    Calculator.confidenceWeight_of_lt5 3 p.minutes p.position (by norm_num)] at hW3
  rw [eb25, ebl25] at hW25
  obtain ⟨hbl40, hbl80⟩ := Calculator.baselineExpectation_bounds p
  have hb85 := Calculator.basePerformance_le p
  have hb40 : (40:ℚ) ≤ Calculator.basePerformance p := le_trans hbl40 h
  obtain ⟨hd60, hd85⟩ := Calculator.fallbackDevelopment_3_bounds p.age
  have hd25 := Calculator.fallbackDevelopment_25_eq p.age
  obtain ⟨hw25l, hw25u⟩ := Calculator.confidenceWeight_mem 25 p.minutes p.position
  obtain ⟨hsc1, hsc2⟩ := Calculator.softCap_bounds p.position
  obtain ⟨he0, he6⟩ := Calculator.eliteBonus_bounds { p with matchesPlayed := 25 }
    (Calculator.weightedPerformance { p with matchesPlayed := 25 })
  rw [hW25] at he0 he6
  have hkey1 : 0 ≤ (Calculator.confidenceWeight 25 p.minutes p.position - 0.30) *
      (Calculator.basePerformance p - Calculator.baselineExpectation p) :=
    mul_nonneg (by linarith) (by linarith)
  have hkey2 : 0 ≤ (1 - Calculator.confidenceWeight 25 p.minutes p.position) *
      (Calculator.basePerformance p - Calculator.baselineExpectation p) :=
    mul_nonneg (by linarith) (by linarith)
  dsimp only [Calculator.calculatePotential, Calculator.predictDevelopment]
  rw [hW3, hW25, hd25,
    if_pos (by norm_num : (3:ℤ) < 5), if_neg (by norm_num : ¬ (3:ℤ) ≥ 10),
    if_neg (by norm_num : ¬ (25:ℤ) < 5), if_neg (by norm_num : ¬ (25:ℤ) < 10),
    if_neg (by norm_num : ¬ (25:ℤ) < 15), if_pos (by norm_num : (25:ℤ) ≥ 10)]
  refine finalAssembly_lt _ _ _ hsc1 hsc2 ?_ ?_ ?_ ?_
  · linarith
  · linarith
  · linarith
  · linarith

/-- Witness for C7 at a productive forward whose base score 85 exceeds its
baseline expectation 70. -/
theorem c7_small_sample_damping_witness :
    Calculator.baselineExpectation
        ⟨Calculator.Position.FW, 18, 7, 1500, 20, 1, 0.9, 0.375, 70, 20, 1.5⟩ ≤
      Calculator.basePerformance
        ⟨Calculator.Position.FW, 18, 7, 1500, 20, 1, 0.9, 0.375, 70, 20, 1.5⟩ ∧
    Calculator.calculatePotential Calculator.MLOutcome.unavailable
        { (⟨Calculator.Position.FW, 18, 7, 1500, 20, 1, 0.9, 0.375, 70, 20, 1.5⟩ :
            Calculator.Player) with matchesPlayed := 3 } <
      Calculator.calculatePotential Calculator.MLOutcome.unavailable
        { (⟨Calculator.Position.FW, 18, 7, 1500, 20, 1, 0.9, 0.375, 70, 20, 1.5⟩ :
            Calculator.Player) with matchesPlayed := 25 } := by
  have hb : Calculator.baselineExpectation
      ⟨Calculator.Position.FW, 18, 7, 1500, 20, 1, 0.9, 0.375, 70, 20, 1.5⟩ ≤
    Calculator.basePerformance
      ⟨Calculator.Position.FW, 18, 7, 1500, 20, 1, 0.9, 0.375, 70, 20, 1.5⟩ := by
    norm_num [Calculator.baselineExpectation, Calculator.basePerformance,
      Calculator.outfieldPerformance, Calculator.volumeBonus,
      Calculator.efficiencyBonus, Calculator.performanceCap, min_def, max_def]
  exact ⟨hb, c7_small_sample_damping _ hb⟩

/-- Witness for C8 at matches 3 ≤ 25 and minutes 100 ≤ 2000. -/
theorem c8_confidence_monotone_witness :
    (3 : ℤ) ≤ 25 ∧ (100 : ℤ) ≤ 2000 ∧
      (Calculator.confidenceWeight 3 100 Calculator.Position.FW ≤
        Calculator.confidenceWeight 25 2000 Calculator.Position.FW ∧
      (Calculator.confidenceTier 3 100 Calculator.Position.FW).2.rank ≤
        (Calculator.confidenceTier 25 2000 Calculator.Position.FW).2.rank) :=
  ⟨by decide, by decide,
    c8_confidence_monotone Calculator.Position.FW 3 25 100 2000 (by decide) (by decide)⟩
